import Mathlib

/-!
Verification of the AI-provider resolution engine of `src/lib/ai-providers.ts`.

The TypeScript module resolves, validates and configures a connection to one
of many LLM providers from two inputs: a snapshot of environment
configuration and optional per-request client overrides.  This file gives a
shallow embedding of that module: JavaScript strings become `String`,
`undefined`/`null` become `Option String`, JavaScript truthiness of a string
value (`undefined`, `null` and `""` are falsy) becomes `truthy`, thrown
errors become `Except ResolutionError`, and the opaque SDK client handles
become `ModelRef` records carrying the dispatching provider name and model
identifier (endpoint/credential plumbing inside the third-party SDK
constructors is outside the module's decision logic and is not modelled).
-/

/-- JavaScript truthiness of an optional string: `undefined`/`null`/`""` are
falsy, every other string is truthy. -/
def truthy : Option String → Bool
  | none => false
  | some s => !(s == "")

/-- JavaScript `a || b` for optional strings followed by reading the result
as a string (`""` when both operands are falsy), as in
`overrides?.modelId || process.env.AI_MODEL`. -/
def jsOrStr (a b : Option String) : String :=
  if truthy a then a.getD "" else b.getD ""

/-- `p` is a prefix of `l` (character lists), mirroring JS `String.startsWith`. -/
def listPrefixOf : List Char → List Char → Bool
  | [], _ => true
  | _ :: _, [] => false
  | a :: as, b :: bs => a == b && listPrefixOf as bs

/-- `p` occurs as a contiguous run in `l`, mirroring JS `String.includes`. -/
def listContainsSeq (p : List Char) : List Char → Bool
  | [] => p.isEmpty
  | b :: bs => listPrefixOf p (b :: bs) || listContainsSeq p bs

/-- JS `s.includes(pat)`. -/
def strContains (s pat : String) : Bool := listContainsSeq pat.toList s.toList

/-- JS `s.startsWith(pat)`. -/
def strStartsWith (s pat : String) : Bool := listPrefixOf pat.toList s.toList

/-! Section: numeric parsing (`Number.parseInt(value, 10)` / `Number.parseFloat`). -/

/-- Value of a run of decimal digits. -/
def digitsToNat (ds : List Char) : Nat :=
  ds.foldl (fun a c => a * 10 + (c.toNat - 48)) 0

/-- JS `Number.parseInt(s, 10)`: skip leading whitespace, optional sign,
longest digit run; `none` models `NaN` (no digits found). -/
def parseIntJS (s : String) : Option Int :=
  let cs := s.toList.dropWhile Char.isWhitespace
  match cs with
  | '-' :: r =>
    let ds := r.takeWhile Char.isDigit
    if ds.isEmpty then none else some (-(digitsToNat ds : Int))
  | '+' :: r =>
    let ds := r.takeWhile Char.isDigit
    if ds.isEmpty then none else some (digitsToNat ds : Int)
  | _ =>
    let ds := cs.takeWhile Char.isDigit
    if ds.isEmpty then none else some (digitsToNat ds : Int)

/-- JS `Number.parseFloat`, modelled over `Rat` (an exact-value model of the
decimal literal; only consumed by the `[0,1]` range check on `GOOGLE_TOP_P`,
where the exact/IEEE distinction does not affect any claim): optional sign,
digits with an optional fractional part, optional exponent; `none` is `NaN`. -/
def parseFloatJS (s : String) : Option Rat :=
  let cs := s.toList.dropWhile Char.isWhitespace
  let (sgn, cs1) : Rat × List Char :=
    match cs with
    | '-' :: r => (-1, r)
    | '+' :: r => (1, r)
    | _ => (1, cs)
  let intPart := cs1.takeWhile Char.isDigit
  let rest1 := cs1.dropWhile Char.isDigit
  let (fracPart, rest2) : List Char × List Char :=
    match rest1 with
    | '.' :: r => (r.takeWhile Char.isDigit, r.dropWhile Char.isDigit)
    | _ => ([], rest1)
  if intPart.isEmpty && fracPart.isEmpty then none
  else
    let mantissa : Rat :=
      (digitsToNat intPart : Rat) + (digitsToNat fracPart : Rat) / ((10 : Rat) ^ fracPart.length)
    let expVal : Int :=
      match rest2 with
      | 'e' :: r => parseExp r
      | 'E' :: r => parseExp r
      | _ => 0
    some (sgn * mantissa * (10 : Rat) ^ expVal)
where
  /-- Exponent part after `e`/`E`: optional sign then digits; `0` when absent. -/
  parseExp (r : List Char) : Int :=
    match r with
    | '-' :: r2 => -(digitsToNat (r2.takeWhile Char.isDigit) : Int)
    | '+' :: r2 => (digitsToNat (r2.takeWhile Char.isDigit) : Int)
    | _ => (digitsToNat (r.takeWhile Char.isDigit) : Int)

/-! Section: data model. -/

/-- The environment variables read by the module (`process.env.*`), each an
optional string; absent variables are `none`. -/
structure Env where
  AI_PROVIDER : Option String := none
  AI_MODEL : Option String := none
  OPENAI_API_KEY : Option String := none
  ANTHROPIC_API_KEY : Option String := none
  GOOGLE_GENERATIVE_AI_API_KEY : Option String := none
  AZURE_API_KEY : Option String := none
  OPENROUTER_API_KEY : Option String := none
  DEEPSEEK_API_KEY : Option String := none
  SILICONFLOW_API_KEY : Option String := none
  GLM_API_KEY : Option String := none
  QWEN_API_KEY : Option String := none
  DOUBAO_API_KEY : Option String := none
  QINIU_API_KEY : Option String := none
  KIMI_API_KEY : Option String := none
  AZURE_BASE_URL : Option String := none
  AZURE_RESOURCE_NAME : Option String := none
  OPENAI_REASONING_EFFORT : Option String := none
  OPENAI_REASONING_SUMMARY : Option String := none
  ANTHROPIC_THINKING_BUDGET_TOKENS : Option String := none
  ANTHROPIC_THINKING_TYPE : Option String := none
  GOOGLE_REASONING_EFFORT : Option String := none
  GOOGLE_THINKING_BUDGET : Option String := none
  GOOGLE_THINKING_LEVEL : Option String := none
  GOOGLE_CANDIDATE_COUNT : Option String := none
  GOOGLE_TOP_K : Option String := none
  GOOGLE_TOP_P : Option String := none
  AZURE_REASONING_EFFORT : Option String := none
  AZURE_REASONING_SUMMARY : Option String := none
  BEDROCK_REASONING_BUDGET_TOKENS : Option String := none
  BEDROCK_REASONING_EFFORT : Option String := none
  OLLAMA_ENABLE_THINKING : Option String := none
  deriving Repr, DecidableEq

/-- `ClientOverrides` from the source: untrusted request-scoped configuration,
all fields independently nullable. -/
structure ClientOverrides where
  provider : Option String := none
  baseUrl : Option String := none
  apiKey : Option String := none
  modelId : Option String := none
  deriving Repr, DecidableEq

/-- The errors thrown by the module, one constructor per `throw` site. -/
inductive ResolutionError
  /-- Message "API key is required when using a custom base URL." (the SSRF gate). -/
  | securityError
  /-- Message "Model ID is required when using custom AI provider." -/
  | modelIdRequiredOverride
  /-- Message "AI_MODEL environment variable is required." -/
  | modelIdRequiredEnv
  /-- Message "Invalid provider: …. Allowed providers: …". -/
  | invalidClientProvider (name : String)
  /-- Message "No AI provider configured. Please set one of the following API keys …". -/
  | noProviderConfigured
  /-- Message "Multiple AI providers configured (…). Please set AI_PROVIDER …". -/
  | ambiguousProvider (configured : List String)
  /-- Message naming the missing `envVar` required for `provider`. -/
  | missingCredential (envVar : String) (provider : String)
  /-- Message "Azure requires either AZURE_BASE_URL or AZURE_RESOURCE_NAME to be set." -/
  | azureEndpointMissing
  /-- Message stating `varName` must be a valid integer, got `raw`. -/
  | intNotNumeric (varName : String) (raw : String)
  /-- Message stating `varName` must be at least `lo`, got `got`. -/
  | intBelowMin (varName : String) (lo got : Int)
  /-- Message stating `varName` must be at most `hi`, got `got`. -/
  | intAboveMax (varName : String) (hi got : Int)
  /-- Message "GOOGLE_TOP_P must be a number between 0 and 1, got: …". -/
  | invalidTopP (raw : String)
  /-- Message "Unknown AI provider: …" (default case of the factory switch). -/
  | unknownProvider (name : String)
  deriving Repr, DecidableEq

/-- `parseIntSafe` from the source: `undefined` for a falsy value, otherwise
`Number.parseInt` with fail-fast NaN and min/max checks. -/
def parseIntSafe (value : Option String) (varName : String) (lo hi : Option Int) :
    Except ResolutionError (Option Int) :=
  if !truthy value then .ok none
  else
    let raw := value.getD ""
    match parseIntJS raw with
    | none => .error (.intNotNumeric varName raw)
    | some n =>
      match lo with
      | some mn =>
        if n < mn then .error (.intBelowMin varName mn n)
        else
          match hi with
          | some mx => if n > mx then .error (.intAboveMax varName mx n) else .ok (some n)
          | none => .ok (some n)
      | none =>
        match hi with
        | some mx => if n > mx then .error (.intAboveMax varName mx n) else .ok (some n)
        | none => .ok (some n)

/-! Section: provider catalog and static metadata. -/

/-- The closed `ProviderName` catalog (the union members of the TS type). -/
def PROVIDER_CATALOG : List String :=
  ["bedrock", "openai", "anthropic", "google", "azure", "ollama", "openrouter",
   "deepseek", "siliconflow", "glm", "qwen", "doubao", "qiniu", "kimi"]

/-- `ALLOWED_CLIENT_PROVIDERS`: providers usable with client-provided API keys. -/
def ALLOWED_CLIENT_PROVIDERS : List String :=
  ["openai", "anthropic", "google", "azure", "openrouter", "deepseek",
   "siliconflow", "glm", "qwen", "doubao", "qiniu", "kimi"]

/-- `PROVIDER_ENV_VARS`: provider → required credential variable (`none` for the
entries whose value is `null` in the source: bedrock and ollama), in the
source's insertion order (which `Object.entries` preserves). -/
def PROVIDER_ENV_VARS : List (String × Option String) :=
  [("bedrock", none),
   ("openai", some "OPENAI_API_KEY"),
   ("anthropic", some "ANTHROPIC_API_KEY"),
   ("google", some "GOOGLE_GENERATIVE_AI_API_KEY"),
   ("azure", some "AZURE_API_KEY"),
   ("ollama", none),
   ("openrouter", some "OPENROUTER_API_KEY"),
   ("deepseek", some "DEEPSEEK_API_KEY"),
   ("siliconflow", some "SILICONFLOW_API_KEY"),
   ("glm", some "GLM_API_KEY"),
   ("qwen", some "QWEN_API_KEY"),
   ("doubao", some "DOUBAO_API_KEY"),
   ("qiniu", some "QINIU_API_KEY"),
   ("kimi", some "KIMI_API_KEY")]

/-- Dynamic credential lookup `process.env[envVar]` for the variables named in
`PROVIDER_ENV_VARS`. -/
def envLookup (env : Env) (v : String) : Option String :=
  if v == "OPENAI_API_KEY" then env.OPENAI_API_KEY
  else if v == "ANTHROPIC_API_KEY" then env.ANTHROPIC_API_KEY
  else if v == "GOOGLE_GENERATIVE_AI_API_KEY" then env.GOOGLE_GENERATIVE_AI_API_KEY
  else if v == "AZURE_API_KEY" then env.AZURE_API_KEY
  else if v == "OPENROUTER_API_KEY" then env.OPENROUTER_API_KEY
  else if v == "DEEPSEEK_API_KEY" then env.DEEPSEEK_API_KEY
  else if v == "SILICONFLOW_API_KEY" then env.SILICONFLOW_API_KEY
  else if v == "GLM_API_KEY" then env.GLM_API_KEY
  else if v == "QWEN_API_KEY" then env.QWEN_API_KEY
  else if v == "DOUBAO_API_KEY" then env.DOUBAO_API_KEY
  else if v == "QINIU_API_KEY" then env.QINIU_API_KEY
  else if v == "KIMI_API_KEY" then env.KIMI_API_KEY
  else none

/-- `PROVIDER_ENV_VARS[provider]` as a plain JS property access: unknown keys
give `undefined`, which this model merges with the explicit `null` entries. -/
def providerEnvVar (p : String) : Option String :=
  (PROVIDER_ENV_VARS.lookup p).bind id

/-- Fixed Bedrock beta flags (`BEDROCK_ANTHROPIC_BETA.bedrock.anthropicBeta`). -/
def BEDROCK_ANTHROPIC_BETA_LIST : List String :=
  ["fine-grained-tool-streaming-2025-05-14"]

/-- Fixed direct-Anthropic beta headers (`ANTHROPIC_BETA_HEADERS`). -/
def ANTHROPIC_BETA_HEADERS : List (String × String) :=
  [("anthropic-beta", "fine-grained-tool-streaming-2025-05-14")]

/-! Section: provider options (`buildProviderOptions`). -/

/-- The `options.openai` / `options.azure` object: separately optional
`reasoningSummary` and `reasoningEffort` fields. -/
structure OpenAIOpts where
  reasoningSummary : Option String := none
  reasoningEffort : Option String := none
  deriving Repr, DecidableEq

/-- The `thinkingConfig` object of the Google branch. -/
structure GoogleThinkingConfig where
  includeThoughts : Bool
  thinkingBudget : Option Int := none
  thinkingLevel : Option String := none
  deriving Repr, DecidableEq

/-- The `options.google` object: the reasoning part (`thinkingConfig` or
`reasoningEffort`) merged with the sampling passthrough fields. -/
structure GoogleOpts where
  thinkingConfig : Option GoogleThinkingConfig := none
  reasoningEffort : Option String := none
  candidateCount : Option Int := none
  topK : Option Int := none
  topP : Option Rat := none
  deriving Repr, DecidableEq

/-- The Bedrock `reasoningConfig` object. -/
structure BedrockReasoningConfig where
  rtype : String
  budgetTokens : Option Int := none
  maxReasoningEffort : Option String := none
  deriving Repr, DecidableEq

/-- The `options.bedrock` object (possibly carrying the fixed beta flags after
the factory's merge step). -/
structure BedrockOpts where
  anthropicBeta : Option (List String) := none
  reasoningConfig : Option BedrockReasoningConfig := none
  deriving Repr, DecidableEq

/-- The provider-keyed options record returned by `buildProviderOptions`
(JS `Record<string, any>` with exactly one provider key when non-empty). -/
inductive ProviderOptions
  | openai (o : OpenAIOpts)
  | anthropic (thinkingType : String) (budgetTokens : Int)
  | google (o : GoogleOpts)
  | azure (o : OpenAIOpts)
  | bedrock (o : BedrockOpts)
  | ollama (think : Bool)
  deriving Repr, DecidableEq

/-- OpenAI reasoning-model test:
`modelId && (modelId.includes("o1") || modelId.includes("o3") || modelId.includes("gpt-5"))`. -/
def openaiReasoningModel (modelId : Option String) : Bool :=
  truthy modelId &&
    (strContains (modelId.getD "") "o1" || strContains (modelId.getD "") "o3" ||
      strContains (modelId.getD "") "gpt-5")

/-- Gemini-generation test of the Google branch. -/
def googleGeminiModel (modelId : Option String) : Bool :=
  truthy modelId &&
    (strContains (modelId.getD "") "gemini-2" || strContains (modelId.getD "") "gemini-3" ||
      strContains (modelId.getD "") "gemini2" || strContains (modelId.getD "") "gemini3")

/-- The `case "openai"` branch of `buildProviderOptions`. -/
def buildOpenAIOpts (eff sum : Option String) (modelId : Option String) :
    Option ProviderOptions :=
  if openaiReasoningModel modelId then
    some (.openai
      { reasoningSummary := some (if truthy sum then sum.getD "" else "detailed"),
        reasoningEffort := if truthy eff then some (eff.getD "") else none })
  else if truthy eff || truthy sum then
    some (.openai
      { reasoningSummary := if truthy sum then some (sum.getD "") else none,
        reasoningEffort := if truthy eff then some (eff.getD "") else none })
  else none

/-- The `case "azure"` branch of `buildProviderOptions` (no model-pattern
default, unlike the OpenAI branch). -/
def buildAzureOpts (eff sum : Option String) : Option ProviderOptions :=
  if truthy eff || truthy sum then
    some (.azure
      { reasoningSummary := if truthy sum then some (sum.getD "") else none,
        reasoningEffort := if truthy eff then some (eff.getD "") else none })
  else none

/-- The `case "google"` branch of `buildProviderOptions`. -/
def buildGoogleOpts (env : Env) (modelId : Option String) :
    Except ResolutionError (Option ProviderOptions) :=
  match parseIntSafe env.GOOGLE_THINKING_BUDGET "GOOGLE_THINKING_BUDGET"
      (some 1024) (some 100000) with
  | .error e => .error e
  | .ok tb =>
    let m := modelId.getD ""
    let tc : GoogleThinkingConfig :=
      if tb.isSome && (strContains m "2.5" || strContains m "2-5") then
        { includeThoughts := true, thinkingBudget := tb }
      else if truthy env.GOOGLE_THINKING_LEVEL &&
          (strContains m "gemini-3" || strContains m "gemini3") then
        { includeThoughts := true, thinkingLevel := env.GOOGLE_THINKING_LEVEL }
      else { includeThoughts := true }
    let reasonPart : Option GoogleOpts :=
      if googleGeminiModel modelId then
        some { thinkingConfig := some tc }
      else if truthy env.GOOGLE_REASONING_EFFORT then
        some { reasoningEffort := env.GOOGLE_REASONING_EFFORT }
      else none
    match parseIntSafe env.GOOGLE_CANDIDATE_COUNT "GOOGLE_CANDIDATE_COUNT"
        (some 1) (some 8) with
    | .error e => .error e
    | .ok cc =>
      match parseIntSafe env.GOOGLE_TOP_K "GOOGLE_TOP_K" (some 1) (some 100) with
      | .error e => .error e
      | .ok tk =>
        let tpRes : Except ResolutionError (Option Rat) :=
          if truthy env.GOOGLE_TOP_P then
            match parseFloatJS (env.GOOGLE_TOP_P.getD "") with
            | none => .error (.invalidTopP (env.GOOGLE_TOP_P.getD ""))
            | some q =>
              if q < 0 || q > 1 then .error (.invalidTopP (env.GOOGLE_TOP_P.getD ""))
              else .ok (some q)
          else .ok none
        match tpRes with
        | .error e => .error e
        | .ok tp =>
          if reasonPart.isSome || cc.isSome || tk.isSome || tp.isSome then
            let base := reasonPart.getD {}
            .ok (some (.google { base with candidateCount := cc, topK := tk, topP := tp }))
          else .ok none

/-- The inner `reasoningConfig` choice of the Bedrock branch: budget for the
Claude family, effort for the Nova family, bare `type: "enabled"` otherwise. -/
def bedrockReasoningFor (bt : Option Int) (eff : Option String) (m : String) :
    BedrockReasoningConfig :=
  if bt.isSome && (strContains m "claude" || strContains m "anthropic") then
    { rtype := "enabled", budgetTokens := bt }
  else if truthy eff && (strContains m "nova" || strContains m "amazon") then
    { rtype := "enabled", maxReasoningEffort := some (eff.getD "") }
  else { rtype := "enabled" }

/-- The `case "bedrock"` branch of `buildProviderOptions`: reasoning config
only for Claude/Nova model identifiers. -/
def buildBedrockOpts (env : Env) (modelId : Option String) :
    Except ResolutionError (Option ProviderOptions) :=
  match parseIntSafe env.BEDROCK_REASONING_BUDGET_TOKENS
      "BEDROCK_REASONING_BUDGET_TOKENS" (some 1024) (some 64000) with
  | .error e => .error e
  | .ok bt =>
    if truthy modelId && (bt.isSome || truthy env.BEDROCK_REASONING_EFFORT) &&
        (strContains (modelId.getD "") "claude" || strContains (modelId.getD "") "anthropic" ||
          strContains (modelId.getD "") "nova" || strContains (modelId.getD "") "amazon") then
      .ok (some (.bedrock
        { reasoningConfig :=
            some (bedrockReasoningFor bt env.BEDROCK_REASONING_EFFORT (modelId.getD "")) }))
    else .ok none

/-- `buildProviderOptions` from the source: a `switch` on the (string-typed)
provider; providers without a case (including the OpenAI-compatible regional
ones and unknown names) fall to `default` and produce no options. -/
def buildProviderOptions (env : Env) (provider : String) (modelId : Option String) :
    Except ResolutionError (Option ProviderOptions) :=
  if provider == "openai" then
    .ok (buildOpenAIOpts env.OPENAI_REASONING_EFFORT env.OPENAI_REASONING_SUMMARY modelId)
  else if provider == "anthropic" then
    match parseIntSafe env.ANTHROPIC_THINKING_BUDGET_TOKENS
        "ANTHROPIC_THINKING_BUDGET_TOKENS" (some 1024) (some 64000) with
    | .error e => .error e
    | .ok tb =>
      let tt := if truthy env.ANTHROPIC_THINKING_TYPE
        then env.ANTHROPIC_THINKING_TYPE.getD "" else "enabled"
      match tb with
      | some b => .ok (some (.anthropic tt b))
      | none => .ok none
  else if provider == "google" then
    buildGoogleOpts env modelId
  else if provider == "azure" then
    .ok (buildAzureOpts env.AZURE_REASONING_EFFORT env.AZURE_REASONING_SUMMARY)
  else if provider == "bedrock" then
    buildBedrockOpts env modelId
  else if provider == "ollama" then
    .ok (if env.OLLAMA_ENABLE_THINKING == some "true" then some (.ollama true) else none)
  else
    .ok none

/-! Section: provider selection and credential validation. -/

/-- The `configuredProviders` list built inside `detectProvider`: providers
whose required credential variable is truthy, with Azure additionally
requiring `AZURE_BASE_URL` or `AZURE_RESOURCE_NAME`. -/
def qualifiedProviders (env : Env) : List String :=
  PROVIDER_ENV_VARS.filterMap fun pv =>
    match pv.2 with
    | none => none
    | some v =>
      if truthy (envLookup env v) then
        if pv.1 == "azure" then
          if truthy env.AZURE_BASE_URL || truthy env.AZURE_RESOURCE_NAME then
            some pv.1
          else none
        else some pv.1
      else none

/-- `detectProvider`: the auto-detected provider when exactly one qualifies,
otherwise `null`. -/
def detectProvider (env : Env) : Option String :=
  match qualifiedProviders env with
  | [p] => some p
  | _ => none

/-- The `configured` list of `getAIModel`'s error path: providers whose
credential variable is set, with no Azure endpoint exclusion. -/
def configuredProviders (env : Env) : List String :=
  PROVIDER_ENV_VARS.filterMap fun pv =>
    match pv.2 with
    | none => none
    | some v => if truthy (envLookup env v) then some pv.1 else none

/-- `validateProviderCredentials`: requires the provider's credential variable
(when one is required) and, for Azure, one of the two endpoint settings. -/
def validateProviderCredentials (env : Env) (provider : String) :
    Except ResolutionError Unit :=
  match providerEnvVar provider with
  | some v =>
    if !truthy (envLookup env v) then .error (.missingCredential v provider)
    else if provider == "azure" &&
        !(truthy env.AZURE_BASE_URL || truthy env.AZURE_RESOURCE_NAME) then
      .error .azureEndpointMissing
    else .ok ()
  | none =>
    if provider == "azure" &&
        !(truthy env.AZURE_BASE_URL || truthy env.AZURE_RESOURCE_NAME) then
      .error .azureEndpointMissing
    else .ok ()

/-- The provider-precedence chain of `getAIModel` (lines 494-541): client
override (validated against `ALLOWED_CLIENT_PROVIDERS`; note the branch tests
`overrides?.provider` alone), then `AI_PROVIDER` taken verbatim, then
auto-detection, then the two failure modes. -/
def selectProvider (env : Env) (ov : ClientOverrides) : Except ResolutionError String :=
  if truthy ov.provider then
    let p := ov.provider.getD ""
    if ALLOWED_CLIENT_PROVIDERS.contains p then .ok p
    else .error (.invalidClientProvider p)
  else if truthy env.AI_PROVIDER then .ok (env.AI_PROVIDER.getD "")
  else
    match detectProvider env with
    | some p => .ok p
    | none =>
      if (configuredProviders env).isEmpty then .error .noProviderConfigured
      else .error (.ambiguousProvider (configuredProviders env))

/-! Section: client factory and the resolution entry point. -/

/-- Opaque handle to the configured SDK client: the construction paths all
reduce, for the purposes of this model, to the dispatching provider name and
the model identifier (endpoint/credential plumbing happens inside the
third-party constructors). -/
structure ModelRef where
  provider : String
  modelId : String
  deriving Repr, DecidableEq

/-- `ModelConfig`, the resolution output. -/
structure ModelConfig where
  model : ModelRef
  providerOptions : Option ProviderOptions := none
  headers : Option (List (String × String)) := none
  modelId : String
  deriving Repr, DecidableEq

/-- The Bedrock deep merge
`{ ...BEDROCK_ANTHROPIC_BETA.bedrock, ...(customProviderOptions?.bedrock || {}) }`:
a later spread key wins, so the fixed `anthropicBeta` survives exactly when the
custom options carry no `anthropicBeta` key of their own. -/
def mergeBedrockBeta (custom : Option ProviderOptions) : BedrockOpts :=
  match custom with
  | some (.bedrock bo) =>
    { anthropicBeta :=
        match bo.anthropicBeta with
        | some x => some x
        | none => some BEDROCK_ANTHROPIC_BETA_LIST,
      reasoningConfig := bo.reasoningConfig }
  | _ => { anthropicBeta := some BEDROCK_ANTHROPIC_BETA_LIST }

/-- The provider `switch` of `getAIModel` plus the final option attachment
(line 778): every catalog provider yields a descriptor; Bedrock merges the
fixed beta flags for `anthropic.claude` model identifiers; the direct
Anthropic path attaches the beta headers; any other provider string reaches
the `default` case and fails. -/
def clientFactory (p m : String) (custom : Option ProviderOptions) :
    Except ResolutionError ModelConfig :=
  if p == "bedrock" then
    let po : Option ProviderOptions :=
      if strContains m "anthropic.claude" then some (.bedrock (mergeBedrockBeta custom))
      else custom
    .ok { model := ⟨"bedrock", m⟩, providerOptions := po, modelId := m }
  else if p == "openai" then
    .ok { model := ⟨"openai", m⟩, providerOptions := custom, modelId := m }
  else if p == "anthropic" then
    .ok { model := ⟨"anthropic", m⟩, providerOptions := custom,
          headers := some ANTHROPIC_BETA_HEADERS, modelId := m }
  else if p == "google" then
    .ok { model := ⟨"google", m⟩, providerOptions := custom, modelId := m }
  else if p == "azure" then
    .ok { model := ⟨"azure", m⟩, providerOptions := custom, modelId := m }
  else if p == "ollama" then
    .ok { model := ⟨"ollama", m⟩, providerOptions := custom, modelId := m }
  else if p == "openrouter" then
    .ok { model := ⟨"openrouter", m⟩, providerOptions := custom, modelId := m }
  else if p == "deepseek" then
    .ok { model := ⟨"deepseek", m⟩, providerOptions := custom, modelId := m }
  else if p == "siliconflow" then
    .ok { model := ⟨"siliconflow", m⟩, providerOptions := custom, modelId := m }
  else if p == "glm" then
    .ok { model := ⟨"glm", m⟩, providerOptions := custom, modelId := m }
  else if p == "qwen" then
    .ok { model := ⟨"qwen", m⟩, providerOptions := custom, modelId := m }
  else if p == "doubao" then
    .ok { model := ⟨"doubao", m⟩, providerOptions := custom, modelId := m }
  else if p == "qiniu" then
    .ok { model := ⟨"qiniu", m⟩, providerOptions := custom, modelId := m }
  else if p == "kimi" then
    .ok { model := ⟨"kimi", m⟩, providerOptions := custom, modelId := m }
  else .error (.unknownProvider p)

/-- Everything in `getAIModel` after the SSRF gate: model-identifier
resolution, provider selection, credential validation (skipped for client
overrides), option building, client construction. -/
def resolveAfterGate (env : Env) (ov : ClientOverrides) :
    Except ResolutionError ModelConfig :=
  if jsOrStr ov.modelId env.AI_MODEL == "" then
    .error (if truthy ov.provider && truthy ov.apiKey
      then .modelIdRequiredOverride else .modelIdRequiredEnv)
  else
    (selectProvider env ov).bind fun p =>
      (if truthy ov.provider && truthy ov.apiKey then Except.ok ()
        else validateProviderCredentials env p).bind fun _ =>
          (buildProviderOptions env p (some (jsOrStr ov.modelId env.AI_MODEL))).bind
            fun custom =>
              clientFactory p (jsOrStr ov.modelId env.AI_MODEL) custom

/-- `getAIModel`: the SSRF security gate
(`overrides?.baseUrl && !overrides?.apiKey`) followed by the rest of
resolution. -/
def getAIModel (env : Env) (ov : ClientOverrides) : Except ResolutionError ModelConfig :=
  if truthy ov.baseUrl && !truthy ov.apiKey then .error .securityError
  else resolveAfterGate env ov

/-- `supportsPromptCaching` from the source. -/
def supportsPromptCaching (modelId : String) : Bool :=
  strContains modelId "claude" || strContains modelId "anthropic" ||
    strStartsWith modelId "us.anthropic" || strStartsWith modelId "eu.anthropic"

/-- Concrete environment for the C5 witness: only the DeepSeek credential. -/
def envC5 : Env := { AI_MODEL := some "deepseek-chat", DEEPSEEK_API_KEY := some "k" }

/-- Descriptor produced by resolving `envC5` with no overrides. -/
def descC5 : ModelConfig :=
  { model := ⟨"deepseek", "deepseek-chat"⟩, modelId := "deepseek-chat" }

/-- Concrete environment for the C9 witness: explicit Bedrock selection, a
Claude-on-Bedrock model identifier and a reasoning budget. -/
def envC9 : Env :=
  { AI_PROVIDER := some "bedrock", AI_MODEL := some "anthropic.claude-3-7-sonnet",
    BEDROCK_REASONING_BUDGET_TOKENS := some "4096" }

/-- Descriptor produced by resolving `envC9` with no overrides. -/
def descC9 : ModelConfig :=
  { model := ⟨"bedrock", "anthropic.claude-3-7-sonnet"⟩,
    providerOptions := some (.bedrock
      { anthropicBeta := some BEDROCK_ANTHROPIC_BETA_LIST,
        reasoningConfig := some { rtype := "enabled", budgetTokens := some 4096 } }),
    modelId := "anthropic.claude-3-7-sonnet" }

/-- Inversion for a successful `Except.bind`. -/
theorem except_bind_ok {ε α β : Type} {x : Except ε α} {f : α → Except ε β} {b : β}
    (h : x.bind f = .ok b) : ∃ a, x = .ok a ∧ f a = .ok b := by
  cases x with
  | error e => simp [Except.bind] at h
  | ok a => exact ⟨a, rfl, h⟩

/-! Section: claim theorems. -/

theorem listPrefixOf_iff (p l : List Char) :
    listPrefixOf p l = true ↔ ∃ t, p ++ t = l := by
  induction p generalizing l with
  | nil => simp [listPrefixOf]
  | cons a as ih =>
    cases l with
    | nil => simp [listPrefixOf]
    | cons b bs =>
      simp only [listPrefixOf, Bool.and_eq_true, beq_iff_eq, ih, List.cons_append,
        List.cons.injEq]
      constructor
      · rintro ⟨rfl, t, rfl⟩; exact ⟨t, rfl, rfl⟩
      · rintro ⟨t, rfl, rfl⟩; exact ⟨rfl, t, rfl⟩

theorem listContainsSeq_iff (p l : List Char) :
    listContainsSeq p l = true ↔ ∃ u v, u ++ p ++ v = l := by
  induction l with
  | nil =>
    simp only [listContainsSeq, List.isEmpty_iff]
    constructor
    · rintro rfl; exact ⟨[], [], rfl⟩
    · rintro ⟨u, v, h⟩
      rcases List.append_eq_nil.mp h with ⟨h1, rfl⟩
      exact (List.append_eq_nil.mp h1).2
  | cons b bs ih =>
    simp only [listContainsSeq, Bool.or_eq_true, listPrefixOf_iff, ih]
    constructor
    · rintro (⟨t, ht⟩ | ⟨u, v, hv⟩)
      · exact ⟨[], t, by simpa using ht⟩
      · exact ⟨b :: u, v, by simp [hv]⟩
    · rintro ⟨u, v, h⟩
      cases u with
      | nil => exact Or.inl ⟨v, by simpa using h⟩
      | cons c cs =>
        simp only [List.cons_append, List.cons.injEq] at h
        exact Or.inr ⟨cs, v, h.2⟩

theorem strContains_iff (s pat : String) :
    strContains s pat = true ↔ ∃ u v, u ++ pat.toList ++ v = s.toList := by
  simp [strContains, listContainsSeq_iff]

/-- A string containing a non-empty pattern is itself non-empty. -/
theorem strContains_ne_empty (pat : String) {m : String} (hp : pat.toList ≠ [])
    (h : strContains m pat = true) : (m == "") = false := by
  rcases (strContains_iff m pat).mp h with ⟨u, v, hm⟩
  by_contra hne
  have hme : m = "" := by
    cases hbe : (m == "") with
    | false => exact absurd hbe hne
    | true => exact eq_of_beq hbe
  subst hme
  rcases List.append_eq_nil.mp hm with ⟨h1, rfl⟩
  exact hp (List.append_eq_nil.mp h1).2


/-- A `startsWith` against a pattern that ends in `pat` implies `includes pat`. -/
theorem strStartsWith_contains (pre pat : String) {m full : String}
    (hsplit : pre.toList ++ pat.toList = full.toList)
    (h : strStartsWith m full = true) : strContains m pat = true := by
  unfold strStartsWith at h
  rcases (listPrefixOf_iff _ _).mp h with ⟨t, ht⟩
  refine (strContains_iff m pat).mpr ⟨pre.toList, t, ?_⟩
  rw [← ht, ← hsplit, List.append_assoc]

/-- C10: `supportsPromptCaching` returns true exactly when the identifier
contains `"claude"` or `"anthropic"`; the two `startsWith` disjuncts are
redundant.  The function is a pure classifier of the identifier string alone
(its type consults neither the provider nor the environment), so the result
is the same whichever provider the identifier is used with. -/
theorem c10_supportsPromptCaching_eq_contains (m : String) :
    supportsPromptCaching m = (strContains m "claude" || strContains m "anthropic") := by
  unfold supportsPromptCaching
  cases hc : strContains m "claude" <;> cases ha : strContains m "anthropic" <;> simp
  constructor
  · cases hus : strStartsWith m "us.anthropic" with
    | false => rfl
    | true =>
      have := strStartsWith_contains "us." "anthropic" (by decide) hus
      rw [this] at ha; exact ha
  · cases heu : strStartsWith m "eu.anthropic" with
    | false => rfl
    | true =>
      have := strStartsWith_contains "eu." "anthropic" (by decide) heu
      rw [this] at ha; exact ha

/-- C1: the SSRF gate fires (with the security error) for every input whose
`baseUrl` is truthy and whose `apiKey` is not, whatever the rest of the
environment or overrides — i.e. before model-id resolution, provider
selection, credential lookup and client construction — and in every other
case the gate is a no-op: resolution is exactly the post-gate pipeline. -/
theorem c1_security_gate (env : Env) (ov : ClientOverrides) :
    (truthy ov.baseUrl = true → truthy ov.apiKey = false →
      getAIModel env ov = .error .securityError) ∧
    (truthy ov.baseUrl = false ∨ truthy ov.apiKey = true →
      getAIModel env ov = resolveAfterGate env ov) := by
  constructor
  · intro h1 h2
    unfold getAIModel
    rw [h1, h2]
    rfl
  · intro h
    unfold getAIModel
    rcases h with h | h <;> rw [h] <;> simp

/-- Witness for C1 at concrete inputs: a bare `baseUrl` override fails with
the security error even though everything else is missing too, and an
override-free call passes the gate unchanged. -/
theorem c1_witness :
    getAIModel {} { baseUrl := some "http://attacker.example" } = .error .securityError ∧
    getAIModel { AI_MODEL := some "deepseek-chat", DEEPSEEK_API_KEY := some "k" } {} =
      resolveAfterGate { AI_MODEL := some "deepseek-chat", DEEPSEEK_API_KEY := some "k" } {} :=
  ⟨(c1_security_gate {} _).1 rfl rfl, (c1_security_gate _ {}).2 (Or.inl rfl)⟩

/-- Counterexample to C2: `overrides.provider = "openai"` with NO override
`apiKey`, while the environment explicitly selects `"anthropic"`.  The claim
says selection must fall through to the environment setting; the code's
branch tests `overrides?.provider` alone, so the override provider wins. -/
theorem c2_counterexample :
    getAIModel
        { AI_PROVIDER := some "anthropic", AI_MODEL := some "claude-3-opus",
          ANTHROPIC_API_KEY := some "sk1", OPENAI_API_KEY := some "sk2" }
        { provider := some "openai" } =
      .ok { model := ⟨"openai", "claude-3-opus"⟩, modelId := "claude-3-opus" } := by
  rfl

/-- C2 (amended): client-override provider selection applies whenever
`overrides.provider` alone is truthy — `overrides.apiKey` is irrelevant to the
selection step (it only controls whether server-side credential validation is
skipped).  The named provider must be in `ALLOWED_CLIENT_PROVIDERS`
(`UnsupportedProviderError` otherwise) and is selected. -/
theorem c2_override_provider_selection (env : Env) (ov : ClientOverrides)
    (h : truthy ov.provider = true) :
    (ALLOWED_CLIENT_PROVIDERS.contains (ov.provider.getD "") = true →
      selectProvider env ov = .ok (ov.provider.getD "")) ∧
    (ALLOWED_CLIENT_PROVIDERS.contains (ov.provider.getD "") = false →
      selectProvider env ov = .error (.invalidClientProvider (ov.provider.getD ""))) := by
  constructor <;> intro hc <;> unfold selectProvider <;> rw [h] <;> simp only [hc] <;> simp

/-- Witness for C2's amended theorem: a lone `provider` override (no api key,
empty environment) still selects the override provider. -/
theorem c2_witness :
    selectProvider {} { provider := some "kimi" } = .ok "kimi" :=
  (c2_override_provider_selection {} { provider := some "kimi" } rfl).1 (by decide)

/-- Counterexample to C3: with only `AZURE_API_KEY` set (no Azure endpoint
settings), zero providers qualify for auto-detection, yet resolution fails
with the "Multiple AI providers configured (azure)" error, not the
no-provider-configured error the claim requires for the zero case. -/
theorem c3_counterexample :
    qualifiedProviders { AI_MODEL := some "gpt-4o-mini", AZURE_API_KEY := some "azk" } = [] ∧
    getAIModel { AI_MODEL := some "gpt-4o-mini", AZURE_API_KEY := some "azk" } {} =
      .error (.ambiguousProvider ["azure"]) := by
  constructor <;> rfl

/-- C3 (amended): with no client override and no explicit environment
selection, auto-detection computes the qualifying set as claimed (credential
variable truthy; Azure additionally needs an endpoint setting) and selects a
unique qualifier.  When the qualifying count is not one, the error is chosen
from the broader list of providers whose credential variable is set, with no
Azure exclusion: if that list is empty the no-provider error is raised, and
otherwise the ambiguous-provider error listing it — so an Azure credential
without endpoint settings yields the ambiguous error even though zero
providers qualify. -/
theorem c3_auto_detection (env : Env) (ov : ClientOverrides)
    (h1 : truthy ov.provider = false) (h2 : truthy env.AI_PROVIDER = false) :
    (∀ p, qualifiedProviders env = [p] → selectProvider env ov = .ok p) ∧
    ((qualifiedProviders env).length ≠ 1 →
      (configuredProviders env = [] →
        selectProvider env ov = .error .noProviderConfigured) ∧
      (configuredProviders env ≠ [] →
        selectProvider env ov = .error (.ambiguousProvider (configuredProviders env)))) := by
  have hsel : selectProvider env ov =
      match detectProvider env with
      | some p => .ok p
      | none =>
        if (configuredProviders env).isEmpty then .error .noProviderConfigured
        else .error (.ambiguousProvider (configuredProviders env)) := by
    unfold selectProvider
    rw [h1, h2]
    simp
  constructor
  · intro p hp
    rw [hsel]
    unfold detectProvider
    rw [hp]
  · intro hlen
    have hdet : detectProvider env = none := by
      unfold detectProvider
      cases hq : qualifiedProviders env with
      | nil => rfl
      | cons a t =>
        cases t with
        | nil => exact absurd (by rw [hq]; rfl) hlen
        | cons b t2 => rfl
    rw [hsel, hdet]
    constructor
    · intro hc
      rw [hc]
      rfl
    · intro hc
      have : (configuredProviders env).isEmpty = false := by
        cases hcp : configuredProviders env with
        | nil => exact absurd hcp hc
        | cons a t => rfl
      simp [this]

/-- Witness for C3's amended theorem: exactly one credential variable set
(DeepSeek) and no other selection signal auto-detects that provider. -/
theorem c3_witness :
    selectProvider { DEEPSEEK_API_KEY := some "k" } {} = .ok "deepseek" :=
  (c3_auto_detection { DEEPSEEK_API_KEY := some "k" } {} rfl rfl).1 "deepseek" (by decide)

/-- C4: whenever resolution selects Azure on a non-client-override path (the
gate passed, the model id resolved, selection produced `"azure"`, and the call
is not a client override), a present `AZURE_API_KEY` with neither
`AZURE_BASE_URL` nor `AZURE_RESOURCE_NAME` makes the whole resolution fail
with the Azure endpoint credential error. -/
theorem c4_azure_missing_endpoint (env : Env) (ov : ClientOverrides)
    (hgate : (truthy ov.baseUrl && !truthy ov.apiKey) = false)
    (hm : (jsOrStr ov.modelId env.AI_MODEL == "") = false)
    (hsel : selectProvider env ov = .ok "azure")
    (hco : (truthy ov.provider && truthy ov.apiKey) = false)
    (hkey : truthy env.AZURE_API_KEY = true)
    (hb : truthy env.AZURE_BASE_URL = false)
    (hr : truthy env.AZURE_RESOURCE_NAME = false) :
    getAIModel env ov = .error .azureEndpointMissing := by
  have hl : envLookup env "AZURE_API_KEY" = env.AZURE_API_KEY := by rfl
  have hval : validateProviderCredentials env "azure" = .error .azureEndpointMissing := by
    unfold validateProviderCredentials
    have hpev : providerEnvVar "azure" = some "AZURE_API_KEY" := by rfl
    simp only [hpev, hl, hkey, hb, hr]
    rfl
  unfold getAIModel
  rw [hgate]
  simp only [Bool.false_eq_true, if_false]
  unfold resolveAfterGate
  simp only [hco, hm, hsel, Bool.false_eq_true, if_false, Except.bind, hval]

/-- Witness for C4: `AI_PROVIDER=azure` with only the API key set. -/
theorem c4_witness :
    getAIModel { AI_PROVIDER := some "azure", AI_MODEL := some "gpt-4o",
                 AZURE_API_KEY := some "key" } {} =
      .error .azureEndpointMissing :=
  c4_azure_missing_endpoint _ {} rfl rfl rfl rfl rfl rfl rfl

/-- C6: for the OpenAI family, reasoning-capable identifiers (containing
`"o1"`, `"o3"` or `"gpt-5"`) with no truthy summary setting always produce an
options object whose `reasoningSummary` defaults to `"detailed"`, while
non-matching identifiers with neither effort nor summary set produce no
options object at all. -/
theorem c6_openai_reasoning_defaults (env : Env) :
    (∀ m : String,
      (strContains m "o1" || strContains m "o3" || strContains m "gpt-5") = true →
      truthy env.OPENAI_REASONING_SUMMARY = false →
      ∃ e, buildProviderOptions env "openai" (some m) =
        .ok (some (.openai { reasoningSummary := some "detailed", reasoningEffort := e }))) ∧
    (∀ m : String,
      (strContains m "o1" || strContains m "o3" || strContains m "gpt-5") = false →
      truthy env.OPENAI_REASONING_EFFORT = false →
      truthy env.OPENAI_REASONING_SUMMARY = false →
      buildProviderOptions env "openai" (some m) = .ok none) := by
  constructor
  · intro m hpat hsum
    have hne : (m == "") = false := by
      rcases Bool.or_eq_true .. |>.mp hpat with h1 | h3
      · rcases Bool.or_eq_true .. |>.mp h1 with ho1 | ho3
        · exact strContains_ne_empty "o1" (by decide) ho1
        · exact strContains_ne_empty "o3" (by decide) ho3
      · exact strContains_ne_empty "gpt-5" (by decide) h3
    have hrm : openaiReasoningModel (some m) = true := by
      simp only [openaiReasoningModel, truthy, Option.getD_some]
      rw [hne, hpat]
      rfl
    refine ⟨if truthy env.OPENAI_REASONING_EFFORT
      then some (env.OPENAI_REASONING_EFFORT.getD "") else none, ?_⟩
    unfold buildProviderOptions buildOpenAIOpts
    rw [hrm, hsum]
    simp
  · intro m hpat heff hsum
    have hrm : openaiReasoningModel (some m) = false := by
      simp only [openaiReasoningModel, truthy, Option.getD_some]
      rw [hpat]
      simp
    unfold buildProviderOptions buildOpenAIOpts
    rw [hrm, heff, hsum]
    simp

/-- Witness for C6: `"gpt-5"` gets the detailed default in an empty
environment; `"claude-3"` gets no options object. -/
theorem c6_witness :
    (∃ e, buildProviderOptions {} "openai" (some "gpt-5") =
      .ok (some (.openai { reasoningSummary := some "detailed", reasoningEffort := e }))) ∧
    buildProviderOptions {} "openai" (some "claude-3") = .ok none :=
  ⟨(c6_openai_reasoning_defaults {}).1 "gpt-5" (by decide) rfl,
   (c6_openai_reasoning_defaults {}).2 "claude-3" (by decide) rfl rfl⟩

/-- Counterexample to C7: `OPENAI_REASONING_EFFORT` set to a value far outside
the documented closed set (`"turbo-max"`) does not fail — resolution succeeds
and the value is passed through verbatim as `reasoningEffort`. -/
theorem c7_counterexample :
    getAIModel { AI_PROVIDER := some "openai", AI_MODEL := some "gpt-4o",
                 OPENAI_API_KEY := some "k",
                 OPENAI_REASONING_EFFORT := some "turbo-max" } {} =
      .ok { model := ⟨"openai", "gpt-4o"⟩,
            providerOptions := some (.openai { reasoningEffort := some "turbo-max" }),
            modelId := "gpt-4o" } := by
  rfl

/-- C7 (amended): the reasoning-effort setting is not validated at runtime
(the closed set exists only as a compile-time type annotation): whenever the
setting is truthy, option building succeeds and copies the value verbatim
into `reasoningEffort`, for every model identifier. -/
theorem c7_effort_passthrough (env : Env) (m : String)
    (h : truthy env.OPENAI_REASONING_EFFORT = true) :
    ∃ s, buildProviderOptions env "openai" (some m) =
      .ok (some (.openai
        { reasoningSummary := s,
          reasoningEffort := some (env.OPENAI_REASONING_EFFORT.getD "") })) := by
  unfold buildProviderOptions buildOpenAIOpts
  cases hrm : openaiReasoningModel (some m)
  · refine ⟨if truthy env.OPENAI_REASONING_SUMMARY
      then some (env.OPENAI_REASONING_SUMMARY.getD "") else none, ?_⟩
    simp [hrm, h]
  · refine ⟨some (if truthy env.OPENAI_REASONING_SUMMARY
      then env.OPENAI_REASONING_SUMMARY.getD "" else "detailed"), ?_⟩
    simp [hrm, h]

/-- Witness for C7's amended theorem at a concrete out-of-set value. -/
theorem c7_witness :
    ∃ s, buildProviderOptions { OPENAI_REASONING_EFFORT := some "ultra" } "openai"
        (some "gpt-4") =
      .ok (some (.openai { reasoningSummary := s, reasoningEffort := some "ultra" })) :=
  c7_effort_passthrough { OPENAI_REASONING_EFFORT := some "ultra" } "gpt-4" rfl

/-- Counterexample to C8: the Anthropic branch never consults the model
identifier — a budget of 2048 is attached even for `"grok-beta"`, which
matches no capable-model naming pattern. -/
theorem c8_counterexample :
    strContains "grok-beta" "claude" = false ∧
    strContains "grok-beta" "anthropic" = false ∧
    buildProviderOptions { ANTHROPIC_THINKING_BUDGET_TOKENS := some "2048" }
        "anthropic" (some "grok-beta") =
      .ok (some (.anthropic "enabled" 2048)) := by
  refine ⟨rfl, rfl, ?_⟩
  rfl

/-- C8 (amended): for the Anthropic token-budget family the thinking object
is attached exactly when the budget setting parses into the closed range
1024–64000 — for every model identifier, matching or not; an unset or empty
setting attaches nothing; a non-numeric value is a hard error; an
out-of-range value is a hard error.  No clamping, no silent default. -/
theorem c8_anthropic_budget (env : Env) (m : Option String) :
    (truthy env.ANTHROPIC_THINKING_BUDGET_TOKENS = false →
      buildProviderOptions env "anthropic" m = .ok none) ∧
    (∀ b : Int, truthy env.ANTHROPIC_THINKING_BUDGET_TOKENS = true →
      parseIntJS (env.ANTHROPIC_THINKING_BUDGET_TOKENS.getD "") = some b →
      1024 ≤ b → b ≤ 64000 →
      buildProviderOptions env "anthropic" m =
        .ok (some (.anthropic
          (if truthy env.ANTHROPIC_THINKING_TYPE
            then env.ANTHROPIC_THINKING_TYPE.getD "" else "enabled") b))) ∧
    (truthy env.ANTHROPIC_THINKING_BUDGET_TOKENS = true →
      parseIntJS (env.ANTHROPIC_THINKING_BUDGET_TOKENS.getD "") = none →
      buildProviderOptions env "anthropic" m =
        .error (.intNotNumeric "ANTHROPIC_THINKING_BUDGET_TOKENS"
          (env.ANTHROPIC_THINKING_BUDGET_TOKENS.getD ""))) ∧
    (∀ b : Int, truthy env.ANTHROPIC_THINKING_BUDGET_TOKENS = true →
      parseIntJS (env.ANTHROPIC_THINKING_BUDGET_TOKENS.getD "") = some b →
      (b < 1024 ∨ 64000 < b) →
      ∃ e, buildProviderOptions env "anthropic" m = .error e) := by
  have hbr : ∀ r : Except ResolutionError (Option Int),
      parseIntSafe env.ANTHROPIC_THINKING_BUDGET_TOKENS
        "ANTHROPIC_THINKING_BUDGET_TOKENS" (some 1024) (some 64000) = r →
      buildProviderOptions env "anthropic" m =
        (match r with
          | .error e => .error e
          | .ok (some b) => .ok (some (.anthropic
              (if truthy env.ANTHROPIC_THINKING_TYPE
                then env.ANTHROPIC_THINKING_TYPE.getD "" else "enabled") b))
          | .ok none => .ok none) := by
    intro r hr
    unfold buildProviderOptions
    rw [hr]
    cases r with
    | error e => rfl
    | ok tb => cases tb <;> rfl
  refine ⟨?_, ?_, ?_, ?_⟩
  · intro ht
    have hps : parseIntSafe env.ANTHROPIC_THINKING_BUDGET_TOKENS
        "ANTHROPIC_THINKING_BUDGET_TOKENS" (some 1024) (some 64000) = .ok none := by
      unfold parseIntSafe
      rw [ht]
      rfl
    exact hbr _ hps
  · intro b ht hp h1 h2
    have hps : parseIntSafe env.ANTHROPIC_THINKING_BUDGET_TOKENS
        "ANTHROPIC_THINKING_BUDGET_TOKENS" (some 1024) (some 64000) = .ok (some b) := by
      unfold parseIntSafe
      rw [ht]
      simp only [Bool.not_true, Bool.false_eq_true, if_false, hp]
      rw [if_neg (by omega), if_neg (by omega)]
    exact hbr _ hps
  · intro ht hp
    have hps : parseIntSafe env.ANTHROPIC_THINKING_BUDGET_TOKENS
        "ANTHROPIC_THINKING_BUDGET_TOKENS" (some 1024) (some 64000) =
        .error (.intNotNumeric "ANTHROPIC_THINKING_BUDGET_TOKENS"
          (env.ANTHROPIC_THINKING_BUDGET_TOKENS.getD "")) := by
      unfold parseIntSafe
      rw [ht]
      simp only [Bool.not_true, Bool.false_eq_true, if_false, hp]
    exact hbr _ hps
  · intro b ht hp hout
    rcases hout with hlo | hhi
    · refine ⟨.intBelowMin "ANTHROPIC_THINKING_BUDGET_TOKENS" 1024 b,
        hbr (.error (.intBelowMin "ANTHROPIC_THINKING_BUDGET_TOKENS" 1024 b)) ?_⟩
      unfold parseIntSafe
      rw [ht]
      simp only [Bool.not_true, Bool.false_eq_true, if_false, hp]
      rw [if_pos hlo]
    · refine ⟨.intAboveMax "ANTHROPIC_THINKING_BUDGET_TOKENS" 64000 b,
        hbr (.error (.intAboveMax "ANTHROPIC_THINKING_BUDGET_TOKENS" 64000 b)) ?_⟩
      unfold parseIntSafe
      rw [ht]
      simp only [Bool.not_true, Bool.false_eq_true, if_false, hp]
      rw [if_neg (by omega), if_pos (by omega)]

/-- Witness for C8's amended theorem: budget 2048 on a non-matching model id. -/
theorem c8_witness :
    buildProviderOptions { ANTHROPIC_THINKING_BUDGET_TOKENS := some "2048" }
        "anthropic" (some "gpt-4") =
      .ok (some (.anthropic "enabled" 2048)) :=
  (c8_anthropic_budget { ANTHROPIC_THINKING_BUDGET_TOKENS := some "2048" }
      (some "gpt-4")).2.1 2048 rfl (by decide) (by decide) (by decide)

/-- Dissection of a successful resolution into its pipeline stages. -/
theorem getAIModel_ok_parts (env : Env) (ov : ClientOverrides) (desc : ModelConfig)
    (h : getAIModel env ov = .ok desc) :
    ∃ p custom,
      selectProvider env ov = .ok p ∧
      buildProviderOptions env p (some (jsOrStr ov.modelId env.AI_MODEL)) = .ok custom ∧
      clientFactory p (jsOrStr ov.modelId env.AI_MODEL) custom = .ok desc := by
  unfold getAIModel at h
  split at h
  · exact Except.noConfusion h
  · unfold resolveAfterGate at h
    split at h
    · exact Except.noConfusion h
    · obtain ⟨p, hp, h⟩ := except_bind_ok h
      obtain ⟨u, hu, h⟩ := except_bind_ok h
      obtain ⟨custom, hcu, h⟩ := except_bind_ok h
      exact ⟨p, custom, hp, hcu, h⟩

/-- A successful factory dispatch always constructed its descriptor in one of
the fourteen provider branches, whose `ModelRef` carries that branch's
catalog name. -/
theorem clientFactory_ok_catalog (p m : String) (custom : Option ProviderOptions)
    (desc : ModelConfig) (h : clientFactory p m custom = .ok desc) :
    PROVIDER_CATALOG.contains desc.model.provider = true := by
  unfold clientFactory at h
  by_cases h0 : (p == "bedrock") = true
  · rw [if_pos h0] at h
    injection h with h2
    subst h2
    rfl
  rw [if_neg h0] at h
  by_cases h1 : (p == "openai") = true
  · rw [if_pos h1] at h
    injection h with h2
    subst h2
    rfl
  rw [if_neg h1] at h
  by_cases h2 : (p == "anthropic") = true
  · rw [if_pos h2] at h
    injection h with h2
    subst h2
    rfl
  rw [if_neg h2] at h
  by_cases h3 : (p == "google") = true
  · rw [if_pos h3] at h
    injection h with h2
    subst h2
    rfl
  rw [if_neg h3] at h
  by_cases h4 : (p == "azure") = true
  · rw [if_pos h4] at h
    injection h with h2
    subst h2
    rfl
  rw [if_neg h4] at h
  by_cases h5 : (p == "ollama") = true
  · rw [if_pos h5] at h
    injection h with h2
    subst h2
    rfl
  rw [if_neg h5] at h
  by_cases h6 : (p == "openrouter") = true
  · rw [if_pos h6] at h
    injection h with h2
    subst h2
    rfl
  rw [if_neg h6] at h
  by_cases h7 : (p == "deepseek") = true
  · rw [if_pos h7] at h
    injection h with h2
    subst h2
    rfl
  rw [if_neg h7] at h
  by_cases h8 : (p == "siliconflow") = true
  · rw [if_pos h8] at h
    injection h with h2
    subst h2
    rfl
  rw [if_neg h8] at h
  by_cases h9 : (p == "glm") = true
  · rw [if_pos h9] at h
    injection h with h2
    subst h2
    rfl
  rw [if_neg h9] at h
  by_cases h10 : (p == "qwen") = true
  · rw [if_pos h10] at h
    injection h with h2
    subst h2
    rfl
  rw [if_neg h10] at h
  by_cases h11 : (p == "doubao") = true
  · rw [if_pos h11] at h
    injection h with h2
    subst h2
    rfl
  rw [if_neg h11] at h
  by_cases h12 : (p == "qiniu") = true
  · rw [if_pos h12] at h
    injection h with h2
    subst h2
    rfl
  rw [if_neg h12] at h
  by_cases h13 : (p == "kimi") = true
  · rw [if_pos h13] at h
    injection h with h2
    subst h2
    rfl
  rw [if_neg h13] at h
  exact Except.noConfusion h

/-- C5: no resolution ever succeeds with a governing provider outside the
closed `ProviderName` catalog — the verbatim `AI_PROVIDER` cast included,
because the factory's `default` branch rejects every non-catalog name. -/
theorem c5_provider_in_catalog (env : Env) (ov : ClientOverrides) (desc : ModelConfig)
    (h : getAIModel env ov = .ok desc) :
    PROVIDER_CATALOG.contains desc.model.provider = true := by
  obtain ⟨p, custom, hp, hcu, hf⟩ := getAIModel_ok_parts env ov desc h
  exact clientFactory_ok_catalog p _ custom desc hf

/-- Witness for C5: a successful auto-detected DeepSeek resolution, whose
provider is in the catalog. -/
theorem c5_witness :
    getAIModel envC5 {} = .ok descC5 ∧
    PROVIDER_CATALOG.contains descC5.model.provider = true :=
  ⟨rfl, c5_provider_in_catalog envC5 {} descC5 rfl⟩

/-- Substring containment is transitive. -/
theorem strContains_trans {m mid pat : String} (h1 : strContains m mid = true)
    (h2 : strContains mid pat = true) : strContains m pat = true := by
  rcases (strContains_iff m mid).mp h1 with ⟨u, v, hu⟩
  rcases (strContains_iff mid pat).mp h2 with ⟨u2, v2, hu2⟩
  refine (strContains_iff m pat).mpr ⟨u ++ u2, v2 ++ v, ?_⟩
  rw [← hu, ← hu2]
  simp [List.append_assoc]

/-- Shape of the Bedrock option builder's output for a Claude model id: no
`anthropicBeta` key ever, and whenever the budget setting parses (in range)
the reasoning config carries exactly that budget. -/
theorem buildBedrockOpts_claude (env : Env) (m : String) (custom : Option ProviderOptions)
    (hcl : strContains m "claude" = true)
    (hcu : buildBedrockOpts env (some m) = .ok custom) :
    (custom = none ∨ ∃ rc0, custom =
      some (.bedrock { anthropicBeta := none, reasoningConfig := some rc0 })) ∧
    (∀ b : Int,
      parseIntSafe env.BEDROCK_REASONING_BUDGET_TOKENS "BEDROCK_REASONING_BUDGET_TOKENS"
          (some 1024) (some 64000) = .ok (some b) →
      custom = some (.bedrock ⟨none, some ⟨"enabled", some b, none⟩⟩)) := by
  have hne : (m == "") = false := strContains_ne_empty "claude" (by decide) hcl
  unfold buildBedrockOpts at hcu
  cases hps : parseIntSafe env.BEDROCK_REASONING_BUDGET_TOKENS
      "BEDROCK_REASONING_BUDGET_TOKENS" (some 1024) (some 64000) with
  | error e =>
    rw [hps] at hcu
    exact Except.noConfusion hcu
  | ok bt =>
    rw [hps] at hcu
    simp only [Option.getD_some] at hcu
    constructor
    · split at hcu
      · injection hcu with h2
        exact Or.inr ⟨_, h2.symm⟩
      · injection hcu with h2
        exact Or.inl h2.symm
    · intro b hb
      injection hb with hb2
      subst hb2
      have hcond : (truthy (some m) &&
          ((some b : Option Int).isSome || truthy env.BEDROCK_REASONING_EFFORT) &&
          (strContains m "claude" || strContains m "anthropic" ||
            strContains m "nova" || strContains m "amazon")) = true := by
        simp [truthy, hne, hcl]
      rw [if_pos hcond] at hcu
      injection hcu with h2
      rw [← h2]
      have hrc : bedrockReasoningFor (some b) env.BEDROCK_REASONING_EFFORT m =
          ⟨"enabled", some b, none⟩ := by
        unfold bedrockReasoningFor
        rw [if_pos (by simp [hcl])]
      rw [hrc]

/-- C9: every successful Bedrock resolution whose model identifier contains
`"anthropic.claude"` carries the fixed beta flags in its provider options,
and when the environment budget setting parses, the merged options carry the
fixed flags and that reasoning budget simultaneously. -/
theorem c9_bedrock_beta_merge (env : Env) (ov : ClientOverrides) (desc : ModelConfig)
    (hsel : selectProvider env ov = .ok "bedrock")
    (hok : getAIModel env ov = .ok desc)
    (hmark : strContains desc.modelId "anthropic.claude" = true) :
    ∃ rc, desc.providerOptions = some (.bedrock
        { anthropicBeta := some BEDROCK_ANTHROPIC_BETA_LIST, reasoningConfig := rc }) ∧
      ∀ b : Int,
        parseIntSafe env.BEDROCK_REASONING_BUDGET_TOKENS "BEDROCK_REASONING_BUDGET_TOKENS"
            (some 1024) (some 64000) = .ok (some b) →
        rc = some ⟨"enabled", some b, none⟩ := by
  obtain ⟨p, custom, hp, hcu, hf⟩ := getAIModel_ok_parts env ov desc hok
  rw [hsel] at hp
  injection hp with hp2
  subst hp2
  unfold clientFactory at hf
  rw [if_pos (by rfl : (("bedrock" : String) == "bedrock") = true)] at hf
  injection hf with h2
  subst h2
  dsimp only at hmark ⊢
  have hclaude : strContains (jsOrStr ov.modelId env.AI_MODEL) "claude" = true :=
    strContains_trans hmark (by decide)
  have hcu' : buildBedrockOpts env (some (jsOrStr ov.modelId env.AI_MODEL)) = .ok custom :=
    hcu
  obtain ⟨hshape, hbud⟩ :=
    buildBedrockOpts_claude env (jsOrStr ov.modelId env.AI_MODEL) custom hclaude hcu'
  rw [if_pos hmark]
  rcases hshape with hnone | ⟨rc0, hsome⟩
  · subst hnone
    refine ⟨none, rfl, ?_⟩
    intro b hb
    exact Option.noConfusion (hbud b hb)
  · subst hsome
    refine ⟨some rc0, rfl, ?_⟩
    intro b hb
    have h3 := hbud b hb
    simp only [Option.some.injEq, ProviderOptions.bedrock.injEq, BedrockOpts.mk.injEq] at h3
    rw [h3.2]

/-- Witness for C9: explicit Bedrock selection of a Claude model with budget
4096 — the merged options hold the beta flags and the budget together. -/
theorem c9_witness :
    ∃ rc, descC9.providerOptions = some (.bedrock
        { anthropicBeta := some BEDROCK_ANTHROPIC_BETA_LIST, reasoningConfig := rc }) ∧
      ∀ b : Int,
        parseIntSafe envC9.BEDROCK_REASONING_BUDGET_TOKENS
            "BEDROCK_REASONING_BUDGET_TOKENS" (some 1024) (some 64000) = .ok (some b) →
        rc = some ⟨"enabled", some b, none⟩ :=
  c9_bedrock_beta_merge envC9 {} descC9 rfl rfl (by decide)
